import Mathlib

/-!
Verification of the service-dependency export utility (`main.py`).

The program is a linear pipeline: load a JSON config, POST a fixed GraphQL
query, flatten the nested JSON response into per-service records, sort them
descending by average call count, and write them to a CSV file.

Shallow embedding conventions:
* JSON numbers are modelled as `Rat` (exact values; the claims never depend
  on floating-point rounding).
* An attribute that may be absent from the JSON object is an outer `Option`
  (`none` = key absent); a JSON `null` value is an inner `Option`
  (`some none` = key present, bound to null).
* The parsed HTTP response body is modelled at two levels: a raw JSON
  level on which every key the transformer dereferences may be absent (so
  the transform step can raise, as in the source), and a well-shaped level
  with the fixed nested shape the query requests, on which the transform
  is total; a refinement theorem shows the two transforms agree on every
  well-shaped body.  The CSV file is modelled as its parsed form, a list
  of rows of cell strings (the `csv` module round-trips cells exactly).
* Fallible steps return `Except String`; the messages they log are returned
  explicitly as lists of strings.
-/

/-- One metric aggregate object, e.g. `duration.p99` or `errorCount.avg`:
a JSON object with a numeric `value` field. -/
structure MetricValue where
  value : Rat
deriving DecidableEq

/-- The `duration` metric sub-object with its `p99` percentile. -/
structure DurationMetric where
  p99 : MetricValue
deriving DecidableEq

/-- A metric sub-object with an `avg` aggregate (`errorCount`, `numCalls`). -/
structure AvgMetric where
  avg : MetricValue
deriving DecidableEq

/-- A neighbor entity inside an edge: its id and name. -/
structure Neighbor where
  entityId : String
  name : String
deriving DecidableEq

/-- One edge result: the neighbor it points at. -/
structure Edge where
  neighbor : Neighbor
deriving DecidableEq

/-- An edge collection (`outgoingEdges(...)` / `incomingEdges(...)`): its
`results` list. -/
structure EdgeCollection where
  results : List Edge
deriving DecidableEq

/-- One entity of the raw query result, with the fixed nested shape the
GraphQL query requests.  `applicationType` is the one attribute the code
reads with a guarded lookup, so it is modelled with key-presence made
explicit: `none` = key absent, `some none` = present but null,
`some (some s)` = present with string value `s`. -/
structure RawEntity where
  entityId : String
  name : String
  duration : DurationMetric
  errorCount : AvgMetric
  numCalls : AvgMetric
  applicationType : Option (Option String)
  outgoingEdges_SERVICE : EdgeCollection
  outgoingEdges_BACKEND : EdgeCollection
  incomingEdges_SERVICE : EdgeCollection
deriving DecidableEq

/-- The `entities` object of the response: its `results` list. -/
structure EntitiesResult where
  results : List RawEntity
deriving DecidableEq

/-- The `data` object of the response body. -/
structure ResponseData where
  entities : EntitiesResult
deriving DecidableEq

/-- The parsed JSON body of a successful GraphQL response. -/
structure RawResponse where
  data : ResponseData
deriving DecidableEq

/-- A flattened Service Record, one per entity, as built by
`process_response_data`.  `applicationType` is `Option String` because the
Python dict can hold `None` there (JSON null); the sentinel is the string
value `some "N/A"`. -/
structure ServiceRecord where
  entityId : String
  name : String
  duration_p99 : Rat
  errorCount_avg : Rat
  numCalls_avg : Rat
  applicationType : Option String
  outgoingEdges_SERVICE : List String
  outgoingEdges_BACKEND : List String
  incomingEdges_SERVICE : List String
deriving DecidableEq

/-- Builds the flat record for one entity: the body of the loop in
`process_response_data` (`main.py` lines 121-131). -/
def mkServiceRecord (result : RawEntity) : ServiceRecord where
  entityId := result.entityId
  name := result.name
  duration_p99 := result.duration.p99.value
  errorCount_avg := result.errorCount.avg.value
  numCalls_avg := result.numCalls.avg.value
  applicationType := result.applicationType.getD (some "N/A")
  outgoingEdges_SERVICE := result.outgoingEdges_SERVICE.results.map (fun edge => edge.neighbor.name)
  outgoingEdges_BACKEND := result.outgoingEdges_BACKEND.results.map (fun edge => edge.neighbor.name)
  incomingEdges_SERVICE := result.incomingEdges_SERVICE.results.map (fun edge => edge.neighbor.name)

/-- The comparison used by `services_info.sort(key=lambda x: x['numCalls_avg'],
reverse=True)`: `a` may come before `b` iff `a`'s key is at least `b`'s
(descending order). -/
def numCallsDesc (a b : ServiceRecord) : Bool :=
  decide (b.numCalls_avg ≤ a.numCalls_avg)

/-- Embedding of `process_response_data` (`main.py` lines 116-138): build one
record per entity in input order, then stable-sort descending by
`numCalls_avg` (Python's `list.sort` with `reverse=True` is a stable
descending sort). -/
def process_response_data (data : RawResponse) : List ServiceRecord :=
  (data.data.entities.results.map mkServiceRecord).mergeSort numCallsDesc

/-- A metric aggregate object as parsed JSON, before shape assumptions:
the `value` key may be absent. -/
structure MetricValueJson where
  value : Option Rat
deriving DecidableEq

/-- The `duration` object as parsed JSON: the `p99` key may be absent. -/
structure DurationMetricJson where
  p99 : Option MetricValueJson
deriving DecidableEq

/-- An `avg`-style metric object as parsed JSON (`errorCount`,
`numCalls`): the `avg` key may be absent. -/
structure AvgMetricJson where
  avg : Option MetricValueJson
deriving DecidableEq

/-- A neighbor object as parsed JSON; the transform reads only `name`. -/
structure NeighborJson where
  entityId : Option String
  name : Option String
deriving DecidableEq

/-- An edge object as parsed JSON: the `neighbor` key may be absent. -/
structure EdgeJson where
  neighbor : Option NeighborJson
deriving DecidableEq

/-- An edge collection as parsed JSON: the `results` key may be absent. -/
structure EdgeCollectionJson where
  results : Option (List EdgeJson)
deriving DecidableEq

/-- One entity as parsed JSON, before any shape assumption: every key the
transformer dereferences may be absent, making the subscript raise.  A
JSON null standing where an object is expected makes the next subscript
raise as well (a `TypeError` rather than a `KeyError`); both are modelled
as the key being `none`, since no claim distinguishes the exception's
class or text.  `applicationType` keeps its three-way modelling because
`.get` never raises on it. -/
structure RawEntityJson where
  entityId : Option String
  name : Option String
  duration : Option DurationMetricJson
  errorCount : Option AvgMetricJson
  numCalls : Option AvgMetricJson
  applicationType : Option (Option String)
  outgoingEdges_SERVICE : Option EdgeCollectionJson
  outgoingEdges_BACKEND : Option EdgeCollectionJson
  incomingEdges_SERVICE : Option EdgeCollectionJson
deriving DecidableEq

/-- The `entities` object as parsed JSON. -/
structure EntitiesResultJson where
  results : Option (List RawEntityJson)
deriving DecidableEq

/-- The `data` object as parsed JSON. -/
structure ResponseDataJson where
  entities : Option EntitiesResultJson
deriving DecidableEq

/-- The parsed JSON body of the HTTP response, before shape assumptions. -/
structure RawResponseJson where
  data : Option ResponseDataJson
deriving DecidableEq

/-- A Python dict subscript `obj[key]`: the value when the key is present,
a raised `KeyError` (whose message is the quoted key) when it is not. -/
def getKey {α : Type} (field : Option α) (key : String) : Except String α :=
  match field with
  | some v => Except.ok v
  | none => Except.error ("\x27" ++ key ++ "\x27")

/-- The lookup `edge['neighbor']['name']` inside the list comprehensions
of `process_response_data` (`main.py` lines 128-130). -/
def neighborName (edge : EdgeJson) : Except String String := do
  let nb ← getKey edge.neighbor "neighbor"
  getKey nb.name "name"

/-- One of the three list comprehensions (`main.py` lines 128-130):
left-to-right over the edge results, the first raising lookup aborts. -/
def neighborNames : List EdgeJson → Except String (List String)
  | [] => Except.ok []
  | edge :: rest => do
    let n ← neighborName edge
    let ns ← neighborNames rest
    Except.ok (n :: ns)

/-- The body of the loop in `process_response_data` over one raw JSON
entity (`main.py` lines 121-131): each dict subscript may raise, in the
source's evaluation order; `applicationType` is read with `.get` and never
raises. -/
def mkServiceRecordJson (result : RawEntityJson) : Except String ServiceRecord := do
  let entityId ← getKey result.entityId "entityId"
  let name ← getKey result.name "name"
  let duration ← getKey result.duration "duration"
  let p99 ← getKey duration.p99 "p99"
  let duration_p99 ← getKey p99.value "value"
  let errorCount ← getKey result.errorCount "errorCount"
  let errorAvg ← getKey errorCount.avg "avg"
  let errorCount_avg ← getKey errorAvg.value "value"
  let numCalls ← getKey result.numCalls "numCalls"
  let callsAvg ← getKey numCalls.avg "avg"
  let numCalls_avg ← getKey callsAvg.value "value"
  let outgoingService ← getKey result.outgoingEdges_SERVICE "outgoingEdges_SERVICE"
  let outgoingServiceResults ← getKey outgoingService.results "results"
  let outgoingServiceNames ← neighborNames outgoingServiceResults
  let outgoingBackend ← getKey result.outgoingEdges_BACKEND "outgoingEdges_BACKEND"
  let outgoingBackendResults ← getKey outgoingBackend.results "results"
  let outgoingBackendNames ← neighborNames outgoingBackendResults
  let incomingService ← getKey result.incomingEdges_SERVICE "incomingEdges_SERVICE"
  let incomingServiceResults ← getKey incomingService.results "results"
  let incomingServiceNames ← neighborNames incomingServiceResults
  Except.ok
    ⟨entityId, name, duration_p99, errorCount_avg, numCalls_avg,
     result.applicationType.getD (some "N/A"),
     outgoingServiceNames, outgoingBackendNames, incomingServiceNames⟩

/-- The per-entity loop of `process_response_data` (`main.py` lines
120-133) over raw JSON: input order, the first raising entity aborts the
whole transform. -/
def buildServiceRecords : List RawEntityJson → Except String (List ServiceRecord)
  | [] => Except.ok []
  | result :: rest => do
    let record ← mkServiceRecordJson result
    let records ← buildServiceRecords rest
    Except.ok (record :: records)

/-- Embedding of `process_response_data` (`main.py` lines 116-138) over
the raw JSON body, fallible: the `data -> entities -> results` walk, the
per-entity loop, then the stable descending sort; the first raising lookup
propagates out of the step (to be caught by `main`'s `try` block). -/
def process_response_data_json (data : RawResponseJson) : Except String (List ServiceRecord) := do
  let dataField ← getKey data.data "data"
  let entities ← getKey dataField.entities "entities"
  let results ← getKey entities.results "results"
  let services_info ← buildServiceRecords results
  Except.ok (services_info.mergeSort numCallsDesc)

/-- The JSON form of a well-shaped edge: every expected key present. -/
def Edge.toJson (edge : Edge) : EdgeJson :=
  ⟨some ⟨some edge.neighbor.entityId, some edge.neighbor.name⟩⟩

/-- The JSON form of a well-shaped entity: every expected key present. -/
def RawEntity.toJson (e : RawEntity) : RawEntityJson where
  entityId := some e.entityId
  name := some e.name
  duration := some ⟨some ⟨some e.duration.p99.value⟩⟩
  errorCount := some ⟨some ⟨some e.errorCount.avg.value⟩⟩
  numCalls := some ⟨some ⟨some e.numCalls.avg.value⟩⟩
  applicationType := e.applicationType
  outgoingEdges_SERVICE := some ⟨some (e.outgoingEdges_SERVICE.results.map Edge.toJson)⟩
  outgoingEdges_BACKEND := some ⟨some (e.outgoingEdges_BACKEND.results.map Edge.toJson)⟩
  incomingEdges_SERVICE := some ⟨some (e.incomingEdges_SERVICE.results.map Edge.toJson)⟩

/-- The JSON form of a well-shaped response: every expected key present. -/
def RawResponse.toJson (r : RawResponse) : RawResponseJson :=
  ⟨some ⟨some ⟨some (r.data.entities.results.map RawEntity.toJson)⟩⟩⟩

/-- Splitting a character list on the two-character separator `", "`,
accumulator-style: the semantics of Python's `str.split(", ")`, the
re-parsing operation named by the round-trip property.  Scans left to
right; on each occurrence of the separator the piece collected so far is
emitted. -/
def splitCharsAux : List Char → List Char → List (List Char)
  | [], acc => [acc]
  | [c], acc => [acc ++ [c]]
  | c1 :: c2 :: rest, acc =>
    if c1 = ',' ∧ c2 = ' ' then acc :: splitCharsAux rest []
    else splitCharsAux (c2 :: rest) (acc ++ [c1])

/-- Whether the two-character separator `", "` occurs in a character list
(the "neighbor name contains the delimiter" side condition of the
round-trip property). -/
def hasSep : List Char → Bool
  | [] => false
  | [_] => false
  | c1 :: c2 :: rest =>
    if c1 = ',' ∧ c2 = ' ' then true else hasSep (c2 :: rest)

/-- Embedding of `', '.join(names)` (`main.py` lines 163-165): the members
joined with `", "`; the empty list joins to the empty string. -/
def joinNames : List String → String
  | [] => ""
  | [n] => n
  | n :: rest => n ++ ", " ++ joinNames rest

/-- Splitting a string on `", "` (Python `str.split(", ")`), lifted from
`splitCharsAux`. -/
def splitNames (s : String) : List String :=
  (splitCharsAux s.data []).map String.mk
/-- The fixed GraphQL query template (`main.py` lines 24-97) up to the `%s` slot for `start_time`.  Braces of the GraphQL document are written with hexadecimal escapes. -/
def graphql_query_part1 : String :=
  "
    \x7b
      entities(
        scope: \"SERVICE\"
        limit: 100
        between: \x7b
          startTime: \""

/-- The template text between the `start_time` and `end_time` slots. -/
def graphql_query_part2 : String :=
  "\"
          endTime: \""

/-- The template text after the `end_time` slot. -/
def graphql_query_part3 : String :=
  "\"
        \x7d
      ) \x7b
        results \x7b
          entityId: id
          name: attribute(expression: \x7b key: \"name\" \x7d)
          duration: metric(expression: \x7b key: \"duration\" \x7d) \x7b
            p99: percentile(size: 99) \x7b
              value
              __typename
            \x7d
            __typename
          \x7d
          errorCount: metric(expression: \x7b key: \"errorCount\" \x7d) \x7b
            avg \x7b
              value
              __typename
            \x7d
            __typename
          \x7d
          numCalls: metric(expression: \x7b key: \"numCalls\" \x7d) \x7b
            avg \x7b
              value
              __typename
            \x7d
            __typename
          \x7d
          applicationType: attribute(expression: \x7b key: \"applicationType\" \x7d)
          outgoingEdges_SERVICE: outgoingEdges(neighborType: SERVICE) \x7b
            results \x7b
              neighbor \x7b
                entityId: id
                name: attribute(expression: \x7b key: \"name\" \x7d)
                __typename
              \x7d
              __typename
            \x7d
            __typename
          \x7d
          outgoingEdges_BACKEND: outgoingEdges(neighborType: BACKEND) \x7b
            results \x7b
              neighbor \x7b
                entityId: id
                name: attribute(expression: \x7b key: \"name\" \x7d)
                __typename
              \x7d
              __typename
            \x7d
            __typename
          \x7d
          incomingEdges_SERVICE: incomingEdges(neighborType: SERVICE) \x7b
            results \x7b
              neighbor \x7b
                entityId: id
                name: attribute(expression: \x7b key: \"name\" \x7d)
                __typename
              \x7d
              __typename
            \x7d
            __typename
          \x7d
          __typename
        \x7d
        __typename
      \x7d
    \x7d
    "

/-- The query document sent by `get_graphql_data`: the template with the two
`%s` slots filled by `start_time` and `end_time` (`main.py` line 97). -/
def graphql_query (start_time end_time : String) : String :=
  graphql_query_part1 ++ start_time ++ graphql_query_part2 ++ end_time ++ graphql_query_part3

/-- The HTTP response to the POST: its status code and (for the 200 case)
its parsed JSON body.  The body field models what `response.json()` would
return, before any shape assumption, so a malformed body can make the
transform step raise. -/
structure HttpResponse where
  status_code : Nat
  body : RawResponseJson
deriving DecidableEq

/-- Embedding of `get_graphql_data` (`main.py` lines 22-113).  The network
interaction is abstracted into the `response` argument; the function
returns the log messages it emits and either the parsed body (status 200,
returned unchanged and unvalidated) or the raised exception's message.  The `endpoint` and `token` arguments
only shape the request, not the observable result. -/
def get_graphql_data (endpoint token start_time end_time : String)
    (response : HttpResponse) : List String × Except String RawResponseJson :=
  let query := graphql_query start_time end_time
  if response.status_code = 200 then
    (["GraphQL query executed successfully."], Except.ok response.body)
  else
    (["Query failed with status code " ++ toString response.status_code ++ "."],
      Except.error ("Query failed to run by returning code of "
        ++ toString response.status_code ++ ". " ++ query))

/-- The fixed CSV header row (`main.py` lines 143-147). -/
def csvHeaders : List String :=
  ["Entity ID", "Service Name", "Duration P99", "Error Count Avg",
   "Number of Calls Avg", "Application Type", "Outgoing Services",
   "Outgoing Backends", "Incoming Services"]

/-- A numeric CSV cell: `csv.writer` stringifies the number.  The claims
never inspect the digits, only whole cells of the list-valued columns. -/
def numCell (value : Rat) : String :=
  toString value

/-- The CSV cell for the `applicationType` dict value: `csv.writer` writes
Python `None` (JSON null) as the empty string and a string as itself. -/
def appTypeCell : Option String → String
  | none => ""
  | some s => s

/-- One CSV data row for a record (`main.py` lines 156-166): the nine cells
in order, with the three list-valued fields joined with `", "`. -/
def csvRow (service : ServiceRecord) : List String :=
  [service.entityId,
   service.name,
   numCell service.duration_p99,
   numCell service.errorCount_avg,
   numCell service.numCalls_avg,
   appTypeCell service.applicationType,
   joinNames service.outgoingEdges_SERVICE,
   joinNames service.outgoingEdges_BACKEND,
   joinNames service.incomingEdges_SERVICE]

/-- The parsed content of the CSV file a successful export writes: the
header row followed by one row per record in the given order. -/
def csvRows (services_info : List ServiceRecord) : List (List String) :=
  csvHeaders :: services_info.map csvRow

/-- Embedding of `export_to_csv` (`main.py` lines 141-170).  File I/O is
abstracted into `writeError`: `none` means the write succeeds and the file
holds `csvRows services_info`; `some e` means the write raises an I/O
exception with message `e`, which is logged and re-raised unchanged.
Returns the log messages and the outcome. -/
def export_to_csv (services_info : List ServiceRecord) (filename : String)
    (writeError : Option String) : List String × Except String (List (List String)) :=
  match writeError with
  | none =>
    (["Service dependency information has been successfully exported to \x27"
        ++ filename ++ "\x27."],
      Except.ok (csvRows services_info))
  | some e =>
    (["Failed to write CSV file: " ++ e], Except.error e)

/-- The configuration mapping (`config.json`): the keys `main` reads.
`log_file` is optional with a default applied in `main`. -/
structure Config where
  graphql_endpoint : String
  bearer_token : String
  start_time : String
  end_time : String
  output_csv : String
  log_file : Option String
deriving DecidableEq

/-- The observable outcome of one whole run of `main`: the exception that
escapes the process boundary uncaught (if any), the messages written to the
log file, and the content of the CSV output file (if one was written). -/
structure MainResult where
  uncaught : Option String
  log : List String
  csvFile : Option (List (List String))
deriving DecidableEq

/-- Embedding of `main` (`main.py` lines 173-196).  `load_config` runs
before `setup_logging` and before the `try` block, so a Config Error
(modelled as `configResult = Except.error e`) escapes uncaught with nothing
logged and no file written.  Inside the `try` block the fetch, transform
and export steps run in sequence exactly once; any error among them —
including a lookup failure inside the transform on a malformed body — is
caught and logged as `"An error occurred: ..."` and the run ends.
(Named `mainRun` because Lean reserves `main` for an entry point.) -/
def mainRun (configResult : Except String Config) (response : HttpResponse)
    (writeError : Option String) : MainResult :=
  match configResult with
  | Except.error e => ⟨some e, [], none⟩
  | Except.ok config =>
    let fetched := get_graphql_data config.graphql_endpoint config.bearer_token
      config.start_time config.end_time response
    match fetched.2 with
    | Except.error e => ⟨none, fetched.1 ++ ["An error occurred: " ++ e], none⟩
    | Except.ok data =>
      match process_response_data_json data with
      | Except.error e => ⟨none, fetched.1 ++ ["An error occurred: " ++ e], none⟩
      | Except.ok services_info =>
        let exported := export_to_csv services_info config.output_csv writeError
        match exported.2 with
        | Except.error e => ⟨none, fetched.1 ++ exported.1 ++ ["An error occurred: " ++ e], none⟩
        | Except.ok rows => ⟨none, fetched.1 ++ exported.1, some rows⟩

/-- Sample entity whose `applicationType` key is absent, otherwise the
spec's example entity (`svc-a`, duration p99 120.5, error avg 0.02, call
avg 500, one outgoing service edge). -/
def sampleEntityNoApp : RawEntity where
  entityId := "e1"
  name := "svc-a"
  duration := ⟨⟨241/2⟩⟩
  errorCount := ⟨⟨1/50⟩⟩
  numCalls := ⟨⟨500⟩⟩
  applicationType := none
  outgoingEdges_SERVICE := ⟨[⟨⟨"n1", "svc-b"⟩⟩]⟩
  outgoingEdges_BACKEND := ⟨[]⟩
  incomingEdges_SERVICE := ⟨[]⟩

/-- Sample entity whose `applicationType` key is present but bound to JSON
null. -/
def sampleEntityNullApp : RawEntity where
  entityId := "e2"
  name := "svc-e"
  duration := ⟨⟨100⟩⟩
  errorCount := ⟨⟨0⟩⟩
  numCalls := ⟨⟨250⟩⟩
  applicationType := some none
  outgoingEdges_SERVICE := ⟨[]⟩
  outgoingEdges_BACKEND := ⟨[]⟩
  incomingEdges_SERVICE := ⟨[⟨⟨"n2", "svc-a"⟩⟩]⟩

/-- Sample raw query result with the two sample entities. -/
def sampleResponse : RawResponse :=
  ⟨⟨⟨[sampleEntityNoApp, sampleEntityNullApp]⟩⟩⟩

/-- A raw query result whose `results` list is empty. -/
def emptyResponse : RawResponse :=
  ⟨⟨⟨[]⟩⟩⟩

/-- The JSON body with an empty `results` list. -/
def emptyResponseJson : RawResponseJson :=
  ⟨some ⟨some ⟨some []⟩⟩⟩

/-- An HTTP 500 response (its body is never read on the error path). -/
def errorResponse : HttpResponse :=
  ⟨500, emptyResponseJson⟩

/-- A successful HTTP response carrying an empty `results` list. -/
def emptyOkResponse : HttpResponse :=
  ⟨200, emptyResponseJson⟩

/-- A successful HTTP response carrying the two sample entities. -/
def sampleOkResponse : HttpResponse :=
  ⟨200, RawResponse.toJson sampleResponse⟩

/-- A malformed entity: its `duration` key is absent, so the transform's
lookup `result['duration']` raises. -/
def malformedEntityJson : RawEntityJson where
  entityId := some "e9"
  name := some "svc-x"
  duration := none
  errorCount := some ⟨some ⟨some 0⟩⟩
  numCalls := some ⟨some ⟨some 1⟩⟩
  applicationType := none
  outgoingEdges_SERVICE := some ⟨some []⟩
  outgoingEdges_BACKEND := some ⟨some []⟩
  incomingEdges_SERVICE := some ⟨some []⟩

/-- A successful HTTP response whose body contains the malformed entity:
the fetch succeeds and the transform step raises. -/
def malformedOkResponse : HttpResponse :=
  ⟨200, ⟨some ⟨some ⟨some [malformedEntityJson]⟩⟩⟩⟩

/-- A sample configuration. -/
def sampleConfig : Config where
  graphql_endpoint := "https://example.com/graphql"
  bearer_token := "token123"
  start_time := "1700000000000"
  end_time := "1700003600000"
  output_csv := "service_dependency_data.csv"
  log_file := none

/-- The spec's own example record: all three neighbor-name lists either
empty or singleton, `outgoingEdges_BACKEND` and `incomingEdges_SERVICE`
empty. -/
def emptyEdgesRecord : ServiceRecord where
  entityId := "e1"
  name := "svc-a"
  duration_p99 := 241/2
  errorCount_avg := 1/50
  numCalls_avg := 500
  applicationType := some "N/A"
  outgoingEdges_SERVICE := []
  outgoingEdges_BACKEND := []
  incomingEdges_SERVICE := []

/-- A record whose three neighbor-name lists are all nonempty and free of
the `", "` delimiter. -/
def fullEdgesRecord : ServiceRecord where
  entityId := "e3"
  name := "svc-f"
  duration_p99 := 10
  errorCount_avg := 0
  numCalls_avg := 7
  applicationType := some "java"
  outgoingEdges_SERVICE := ["svc-b", "svc-c"]
  outgoingEdges_BACKEND := ["db-1"]
  incomingEdges_SERVICE := ["svc-d"]

theorem numCallsDesc_trans (a b c : ServiceRecord) :
    numCallsDesc a b → numCallsDesc b c → numCallsDesc a c := by
  simp only [numCallsDesc, decide_eq_true_eq]
  exact fun h1 h2 => le_trans h2 h1

theorem numCallsDesc_total (a b : ServiceRecord) :
    numCallsDesc a b || numCallsDesc b a := by
  simp only [numCallsDesc, Bool.or_eq_true, decide_eq_true_eq]
  exact le_total b.numCalls_avg a.numCalls_avg

theorem splitCharsAux_no_sep (s : List Char) (h : hasSep s = false) :
    ∀ acc, splitCharsAux s acc = [acc ++ s] := by
  induction s using hasSep.induct with
  | case1 => intro acc; simp [splitCharsAux]
  | case2 c => intro acc; simp [splitCharsAux]
  | case3 c1 c2 rest hcond =>
    rw [hasSep, if_pos hcond] at h
    exact absurd h (by simp)
  | case4 c1 c2 rest hcond ih =>
    rw [hasSep, if_neg hcond] at h
    intro acc
    rw [splitCharsAux, if_neg hcond, ih h]
    simp

theorem splitCharsAux_boundary (n : List Char) (h : hasSep n = false) :
    ∀ t acc, splitCharsAux (n ++ ',' :: ' ' :: t) acc = (acc ++ n) :: splitCharsAux t [] := by
  induction n using hasSep.induct with
  | case1 =>
    intro t acc
    rw [List.nil_append, splitCharsAux, if_pos ⟨rfl, rfl⟩]
    simp
  | case2 c =>
    intro t acc
    have hc : ¬(c = ',' ∧ ',' = ' ') := by simp
    rw [List.singleton_append, splitCharsAux, if_neg hc, splitCharsAux, if_pos ⟨rfl, rfl⟩]
  | case3 c1 c2 rest hcond =>
    rw [hasSep, if_pos hcond] at h
    exact absurd h (by simp)
  | case4 c1 c2 rest hcond ih =>
    rw [hasSep, if_neg hcond] at h
    intro t acc
    rw [List.cons_append, List.cons_append, splitCharsAux, if_neg hcond]
    rw [← List.cons_append, ih h]
    simp

theorem data_joinNames_cons (n m : String) (rest : List String) :
    (joinNames (n :: m :: rest)).data = n.data ++ ',' :: ' ' :: (joinNames (m :: rest)).data := by
  rw [joinNames]
  · simp [String.data_append]
  · simp

theorem splitChars_joinNames (L : List String) (h1 : L ≠ [])
    (h2 : ∀ n ∈ L, hasSep n.data = false) :
    splitCharsAux (joinNames L).data [] = L.map String.data := by
  induction L with
  | nil => exact absurd rfl h1
  | cons n rest ih =>
    match rest with
    | [] =>
      rw [joinNames]
      rw [splitCharsAux_no_sep n.data (h2 n (by simp)) []]
      simp
    | m :: rest' =>
      rw [data_joinNames_cons, splitCharsAux_boundary n.data (h2 n (by simp))]
      rw [ih (by simp) (fun x hx => h2 x (List.mem_cons_of_mem n hx))]
      simp

theorem splitNames_joinNames (L : List String) (h1 : L ≠ [])
    (h2 : ∀ n ∈ L, hasSep n.data = false) :
    splitNames (joinNames L) = L := by
  rw [splitNames, splitChars_joinNames L h1 h2, List.map_map]
  have h : String.mk ∘ String.data = id := funext fun s => rfl
  rw [h, List.map_id]

/-- The stable-sort law for the key filter: the records of the output of
`process_response_data` holding any one value of the sort key appear in
exactly their input order (as a list, equal to the same filter of the
unsorted record list). -/
theorem process_response_data_filter_key (d : RawResponse) (k : Rat) :
    (process_response_data d).filter (fun r => decide (r.numCalls_avg = k)) =
      (d.data.entities.results.map mkServiceRecord).filter
        (fun r => decide (r.numCalls_avg = k)) := by
  set l := d.data.entities.results.map mkServiceRecord with hl
  set p : ServiceRecord → Bool := fun r => decide (r.numCalls_avg = k) with hp
  have hkey : ∀ x ∈ l.filter p, x.numCalls_avg = k := by
    intro x hx
    have := (List.mem_filter.mp hx).2
    simpa [hp] using this
  have hpw : (l.filter p).Pairwise (fun a b => numCallsDesc a b = true) := by
    apply List.pairwise_of_forall_mem_list
    intro a ha b hb
    simp [numCallsDesc, hkey a ha, hkey b hb]
  have hsub : (l.filter p).Sublist ((l.mergeSort numCallsDesc).filter p) := by
    have h1 : (l.filter p).Sublist (l.mergeSort numCallsDesc) :=
      List.sublist_mergeSort numCallsDesc_trans numCallsDesc_total hpw (List.filter_sublist l)
    have h2 := List.Sublist.filter p h1
    rwa [List.filter_eq_self.mpr (fun a ha => (List.mem_filter.mp ha).2)] at h2
  have hlen : ((l.mergeSort numCallsDesc).filter p).length = (l.filter p).length :=
    (List.Perm.filter p (List.mergeSort_perm l numCallsDesc)).length_eq
  exact (hsub.eq_of_length hlen.symm).symm

theorem ok_bind {ε α β : Type} (a : α) (f : α → Except ε β) :
    ((Except.ok a : Except ε α) >>= f) = f a :=
  rfl

theorem neighborNames_toJson (l : List Edge) :
    neighborNames (l.map Edge.toJson) = Except.ok (l.map (fun edge => edge.neighbor.name)) := by
  induction l with
  | nil => rfl
  | cons e rest ih =>
    simp only [neighborNames, neighborName, Edge.toJson, getKey, ok_bind, ih, List.map_cons]

theorem mkServiceRecordJson_toJson (e : RawEntity) :
    mkServiceRecordJson (RawEntity.toJson e) = Except.ok (mkServiceRecord e) := by
  simp only [mkServiceRecordJson, RawEntity.toJson, getKey, ok_bind, neighborNames_toJson,
    mkServiceRecord]

theorem buildServiceRecords_toJson (l : List RawEntity) :
    buildServiceRecords (l.map RawEntity.toJson) = Except.ok (l.map mkServiceRecord) := by
  induction l with
  | nil => rfl
  | cons e rest ih =>
    simp only [buildServiceRecords, mkServiceRecordJson_toJson, ok_bind, ih, List.map_cons]

/-- The fallible JSON-level transform agrees with the total well-shaped
transform on every well-shaped body: `process_response_data` is exactly
the behavior of the transform step when every expected key is present. -/
theorem process_response_data_json_toJson (raw : RawResponse) :
    process_response_data_json (RawResponse.toJson raw) =
      Except.ok (process_response_data raw) := by
  simp only [process_response_data_json, RawResponse.toJson, getKey, ok_bind,
    buildServiceRecords_toJson, process_response_data]

/-- C1: for every raw query result, the transformed sequence is sorted by
`numCalls_avg` in descending order (every adjacent pair `(r1, r2)`
satisfies `r1.numCalls_avg ≥ r2.numCalls_avg`), and records with equal
`numCalls_avg` keep their original relative input order: for each key
value, the records of the output holding it equal, as a list, the records
of the unsorted input record sequence holding it (the stable-sort law). -/
theorem C1_sorted_descending_stable (d : RawResponse) :
    (process_response_data d).Chain' (fun r1 r2 => r2.numCalls_avg ≤ r1.numCalls_avg) ∧
    ∀ k : Rat, (process_response_data d).filter (fun r => decide (r.numCalls_avg = k)) =
      (d.data.entities.results.map mkServiceRecord).filter
        (fun r => decide (r.numCalls_avg = k)) := by
  constructor
  · have hp := List.sorted_mergeSort numCallsDesc_trans numCallsDesc_total
      (d.data.entities.results.map mkServiceRecord)
    have hp2 : (process_response_data d).Pairwise
        (fun r1 r2 => r2.numCalls_avg ≤ r1.numCalls_avg) := by
      refine List.Pairwise.imp ?_ hp
      intro a b hab
      simpa [numCallsDesc] using hab
    exact hp2.chain'
  · intro k
    exact process_response_data_filter_key d k

/-- C2: for every raw query result with N entities (of the expected nested
shape), the transformer produces exactly N records, each record being the
flattening of one input entity (so all nine fields are populated), and the
sentinel is applied exactly when the `applicationType` key is absent: a
present value, null included, is passed through unchanged. -/
theorem C2_record_count_and_fields (d : RawResponse) :
    (process_response_data d).length = d.data.entities.results.length ∧
    (process_response_data d).Perm (d.data.entities.results.map mkServiceRecord) ∧
    ∀ e : RawEntity,
      (e.applicationType = none → (mkServiceRecord e).applicationType = some "N/A") ∧
      (∀ v, e.applicationType = some v → (mkServiceRecord e).applicationType = v) := by
  refine ⟨?_, ?_, ?_⟩
  · simp [process_response_data]
  · exact List.mergeSort_perm _ _
  · intro e
    constructor
    · intro h
      simp [mkServiceRecord, h]
    · intro v h
      simp [mkServiceRecord, h]

/-- Witness for C2 at the sample data: the entity with the key absent gets
the sentinel, the entity with a null value keeps null. -/
theorem C2_record_count_and_fields_witness :
    (mkServiceRecord sampleEntityNoApp).applicationType = some "N/A" ∧
    (mkServiceRecord sampleEntityNullApp).applicationType = none :=
  ⟨((C2_record_count_and_fields sampleResponse).2.2 sampleEntityNoApp).1 rfl,
   ((C2_record_count_and_fields sampleResponse).2.2 sampleEntityNullApp).2 none rfl⟩

/-- C4: an entity of the raw query result lacking the `applicationType`
key yields a record (present in the transformer's output) whose
`applicationType` field is the literal sentinel string `"N/A"`. -/
theorem C4_missing_applicationType_sentinel (d : RawResponse) (e : RawEntity)
    (he : e ∈ d.data.entities.results) (ha : e.applicationType = none) :
    mkServiceRecord e ∈ process_response_data d ∧
    (mkServiceRecord e).applicationType = some "N/A" := by
  constructor
  · rw [process_response_data]
    exact List.mem_mergeSort.mpr (List.mem_map_of_mem mkServiceRecord he)
  · simp [mkServiceRecord, ha]

/-- Witness for C4 at the sample data. -/
theorem C4_missing_applicationType_sentinel_witness :
    mkServiceRecord sampleEntityNoApp ∈ process_response_data sampleResponse ∧
    (mkServiceRecord sampleEntityNoApp).applicationType = some "N/A" :=
  C4_missing_applicationType_sentinel sampleResponse sampleEntityNoApp (by simp [sampleResponse]) rfl

/-- C10: an entity whose `applicationType` key is present but bound to
null yields a record whose `applicationType` field is that null value, not
the sentinel: `.get` substitutes only on key absence. -/
theorem C10_null_applicationType_not_sentinel (d : RawResponse) (e : RawEntity)
    (he : e ∈ d.data.entities.results) (ha : e.applicationType = some none) :
    mkServiceRecord e ∈ process_response_data d ∧
    (mkServiceRecord e).applicationType = none ∧
    (mkServiceRecord e).applicationType ≠ some "N/A" := by
  refine ⟨?_, ?_, ?_⟩
  · rw [process_response_data]
    exact List.mem_mergeSort.mpr (List.mem_map_of_mem mkServiceRecord he)
  · simp [mkServiceRecord, ha]
  · simp [mkServiceRecord, ha]

/-- Witness for C10 at the sample data. -/
theorem C10_null_applicationType_not_sentinel_witness :
    mkServiceRecord sampleEntityNullApp ∈ process_response_data sampleResponse ∧
    (mkServiceRecord sampleEntityNullApp).applicationType = none ∧
    (mkServiceRecord sampleEntityNullApp).applicationType ≠ some "N/A" :=
  C10_null_applicationType_not_sentinel sampleResponse sampleEntityNullApp (by simp [sampleResponse]) rfl

/-- C6: every successful export produces the file `csvRows services_info`,
whose first row is exactly the fixed header row of the nine named columns
`Entity ID`, `Service Name`, `Duration P99`, `Error Count Avg`,
`Number of Calls Avg`, `Application Type`, `Outgoing Services`,
`Outgoing Backends`, `Incoming Services`. -/
theorem C6_header_row (services_info : List ServiceRecord) (filename : String) :
    (export_to_csv services_info filename none).2 = Except.ok (csvRows services_info) ∧
    (csvRows services_info).head? = some csvHeaders ∧
    csvHeaders = ["Entity ID", "Service Name", "Duration P99", "Error Count Avg",
      "Number of Calls Avg", "Application Type", "Outgoing Services",
      "Outgoing Backends", "Incoming Services"] ∧
    csvHeaders.length = 9 :=
  ⟨rfl, rfl, rfl, rfl⟩

/-- C9: a Config Error (the config file absent or unparsable, so
`load_config` raises before `setup_logging` runs and before the `try`
block) escapes `main` uncaught, with nothing logged and no CSV file
written. -/
theorem C9_config_error_uncaught_unlogged (e : String) (response : HttpResponse)
    (writeError : Option String) :
    mainRun (Except.error e) response writeError = ⟨some e, [], none⟩ :=
  rfl

/-- C3: on any non-200 HTTP status the fetch fails with a Query Error whose
message carries the status code and the original query text, and in that
run `main` writes no CSV file.  (The pipeline issues the single fetch by
construction, so no retry exists to attempt.) -/
theorem C3_non200_fails_no_csv (config : Config) (response : HttpResponse)
    (writeError : Option String) (h : response.status_code ≠ 200) :
    ∃ msg,
      (get_graphql_data config.graphql_endpoint config.bearer_token config.start_time
        config.end_time response).2 = Except.error msg ∧
      (∃ pre post, msg = pre ++ toString response.status_code ++ post) ∧
      (∃ pre, msg = pre ++ graphql_query config.start_time config.end_time) ∧
      (mainRun (Except.ok config) response writeError).csvFile = none := by
  refine ⟨"Query failed to run by returning code of " ++ toString response.status_code
      ++ ". " ++ graphql_query config.start_time config.end_time, ?_, ?_, ?_, ?_⟩
  · simp [get_graphql_data, h]
  · exact ⟨"Query failed to run by returning code of ",
      ". " ++ graphql_query config.start_time config.end_time,
      by simp [String.append_assoc]⟩
  · exact ⟨"Query failed to run by returning code of " ++ toString response.status_code
      ++ ". ", by simp [String.append_assoc]⟩
  · simp [mainRun, get_graphql_data, h]

/-- Witness for C3 at a concrete 500 response. -/
theorem C3_non200_fails_no_csv_witness :
    ∃ msg,
      (get_graphql_data sampleConfig.graphql_endpoint sampleConfig.bearer_token
        sampleConfig.start_time sampleConfig.end_time errorResponse).2 = Except.error msg ∧
      (∃ pre post, msg = pre ++ toString errorResponse.status_code ++ post) ∧
      (∃ pre, msg = pre ++ graphql_query sampleConfig.start_time sampleConfig.end_time) ∧
      (mainRun (Except.ok sampleConfig) errorResponse none).csvFile = none :=
  C3_non200_fails_no_csv sampleConfig errorResponse none (by decide)

/-- C7: a successful fetch whose `results` list is empty drives the
end-to-end pipeline to a CSV file holding only the header row.  (At the
`results = some []` level the JSON body is determined, the surrounding
objects having no other field.) -/
theorem C7_empty_results_header_only (config : Config) (response : HttpResponse)
    (h200 : response.status_code = 200)
    (hbody : response.body = ⟨some ⟨some ⟨some []⟩⟩⟩) :
    (mainRun (Except.ok config) response none).csvFile = some [csvHeaders] := by
  simp [mainRun, get_graphql_data, h200, hbody, process_response_data_json,
    buildServiceRecords, getKey, ok_bind, export_to_csv, csvRows]

/-- Witness for C7 at the concrete empty 200 response. -/
theorem C7_empty_results_header_only_witness :
    (mainRun (Except.ok sampleConfig) emptyOkResponse none).csvFile = some [csvHeaders] :=
  C7_empty_results_header_only sampleConfig emptyOkResponse rfl rfl

/-- C8: with the config loaded, `main` never lets an exception of the
Fetch/Transform/Export steps escape (`uncaught = none` always, the process
exits cleanly); when the fetch raises (non-200), when the transform raises
(a failing lookup on a malformed body), or when the export raises (an I/O
failure), the last logged line is the generic `"An error occurred: "`
message carrying the cause, and no CSV file is recorded as written.  Each
step runs at most once by construction: nothing is retried. -/
theorem C8_catch_all_logs_and_ends (config : Config) (response : HttpResponse)
    (writeError : Option String) :
    (mainRun (Except.ok config) response writeError).uncaught = none ∧
    (response.status_code ≠ 200 →
      ∃ e, (get_graphql_data config.graphql_endpoint config.bearer_token config.start_time
          config.end_time response).2 = Except.error e ∧
        (mainRun (Except.ok config) response writeError).log.getLast? =
          some ("An error occurred: " ++ e) ∧
        (mainRun (Except.ok config) response writeError).csvFile = none) ∧
    (∀ e, response.status_code = 200 →
      process_response_data_json response.body = Except.error e →
      (mainRun (Except.ok config) response writeError).log.getLast? =
        some ("An error occurred: " ++ e) ∧
      (mainRun (Except.ok config) response writeError).csvFile = none) ∧
    (∀ e records, response.status_code = 200 →
      process_response_data_json response.body = Except.ok records →
      writeError = some e →
      (mainRun (Except.ok config) response writeError).log.getLast? =
        some ("An error occurred: " ++ e) ∧
      (mainRun (Except.ok config) response writeError).csvFile = none) := by
  refine ⟨?_, ?_, ?_, ?_⟩
  · by_cases h : response.status_code = 200
    · cases htr : process_response_data_json response.body with
      | error e => simp [mainRun, get_graphql_data, h, htr]
      | ok records =>
        cases writeError with
        | none => simp [mainRun, get_graphql_data, h, htr, export_to_csv]
        | some we => simp [mainRun, get_graphql_data, h, htr, export_to_csv]
    · simp [mainRun, get_graphql_data, h]
  · intro h
    refine ⟨"Query failed to run by returning code of " ++ toString response.status_code
        ++ ". " ++ graphql_query config.start_time config.end_time, ?_, ?_, ?_⟩
    · simp [get_graphql_data, h]
    · simp [mainRun, get_graphql_data, h]
    · simp [mainRun, get_graphql_data, h]
  · intro e h200 htr
    constructor
    · simp [mainRun, get_graphql_data, h200, htr]
    · simp [mainRun, get_graphql_data, h200, htr]
  · intro e records h200 htr hwe
    subst hwe
    constructor
    · simp [mainRun, get_graphql_data, h200, htr, export_to_csv]
    · simp [mainRun, get_graphql_data, h200, htr, export_to_csv]

/-- Witness for C8 at two concrete runs: one whose transform step raises
on a malformed body (missing `duration` key), one whose export step
raises. -/
theorem C8_catch_all_logs_and_ends_witness :
    (mainRun (Except.ok sampleConfig) malformedOkResponse none).uncaught = none ∧
    ((mainRun (Except.ok sampleConfig) malformedOkResponse none).log.getLast? =
        some ("An error occurred: " ++ "\x27duration\x27") ∧
      (mainRun (Except.ok sampleConfig) malformedOkResponse none).csvFile = none) ∧
    ((mainRun (Except.ok sampleConfig) emptyOkResponse (some "disk full")).log.getLast? =
        some ("An error occurred: " ++ "disk full") ∧
      (mainRun (Except.ok sampleConfig) emptyOkResponse (some "disk full")).csvFile = none) :=
  ⟨(C8_catch_all_logs_and_ends sampleConfig malformedOkResponse none).1,
   (C8_catch_all_logs_and_ends sampleConfig malformedOkResponse none).2.2.1
     "\x27duration\x27" rfl rfl,
   (C8_catch_all_logs_and_ends sampleConfig emptyOkResponse (some "disk full")).2.2.2
     "disk full" (process_response_data emptyResponse) rfl
     (process_response_data_json_toJson emptyResponse) rfl⟩

/-- C5 as stated is false: the spec's own example record has an empty
`outgoingEdges_SERVICE` list, so its joined column (cell 6 of its CSV data
row) is the empty string, and splitting the empty string on `", "` yields
`[""]`, not the original empty list.  (The record's neighbor-name lists
contain no name with the `", "` substring, so the claim's stated side
condition holds at it.) -/
theorem C5_counterexample_empty_list :
    splitNames ((csvRow emptyEdgesRecord).getD 6 "") ≠ emptyEdgesRecord.outgoingEdges_SERVICE ∧
    splitNames ((csvRow emptyEdgesRecord).getD 6 "") = [""] := by
  constructor
  · decide
  · decide

/-- C5 amended: exporting N records yields N data rows plus one header row,
every row has exactly 9 columns, and for every record, each NONEMPTY
neighbor-name list none of whose names contains the `", "` delimiter is
recovered by splitting its joined column on `", "` (an empty list joins to
the empty string, which splits back to `[""]`, so it is excluded). -/
theorem C5_export_roundtrip_amended (records : List ServiceRecord) :
    (csvRows records).length = records.length + 1 ∧
    (∀ row ∈ csvRows records, row.length = 9) ∧
    (∀ r ∈ records,
      (r.outgoingEdges_SERVICE ≠ [] →
        (∀ n ∈ r.outgoingEdges_SERVICE, hasSep n.data = false) →
        splitNames ((csvRow r).getD 6 "") = r.outgoingEdges_SERVICE) ∧
      (r.outgoingEdges_BACKEND ≠ [] →
        (∀ n ∈ r.outgoingEdges_BACKEND, hasSep n.data = false) →
        splitNames ((csvRow r).getD 7 "") = r.outgoingEdges_BACKEND) ∧
      (r.incomingEdges_SERVICE ≠ [] →
        (∀ n ∈ r.incomingEdges_SERVICE, hasSep n.data = false) →
        splitNames ((csvRow r).getD 8 "") = r.incomingEdges_SERVICE)) := by
  refine ⟨?_, ?_, ?_⟩
  · simp [csvRows]
  · intro row hrow
    rcases List.mem_cons.mp hrow with h | h
    · subst h
      rfl
    · obtain ⟨r, hr, rfl⟩ := List.mem_map.mp h
      rfl
  · intro r hr
    refine ⟨?_, ?_, ?_⟩
    · intro hne hsep
      have hc : (csvRow r).getD 6 "" = joinNames r.outgoingEdges_SERVICE := rfl
      rw [hc]
      exact splitNames_joinNames _ hne hsep
    · intro hne hsep
      have hc : (csvRow r).getD 7 "" = joinNames r.outgoingEdges_BACKEND := rfl
      rw [hc]
      exact splitNames_joinNames _ hne hsep
    · intro hne hsep
      have hc : (csvRow r).getD 8 "" = joinNames r.incomingEdges_SERVICE := rfl
      rw [hc]
      exact splitNames_joinNames _ hne hsep

/-- Witness for the amended C5 at a record with nonempty, delimiter-free
neighbor-name lists. -/
theorem C5_export_roundtrip_amended_witness :
    splitNames ((csvRow fullEdgesRecord).getD 6 "") = fullEdgesRecord.outgoingEdges_SERVICE :=
  ((C5_export_roundtrip_amended [fullEdgesRecord]).2.2 fullEdgesRecord
    (by simp)).1 (by decide) (by decide)
